import Mathlib

/-!
Shallow embedding of `src/chapter_3_suggested_exercises.rs` and proofs about
its three exercise routines: the two temperature conversions, the Fibonacci
generator, and the cumulative carol printer.

Machine integers are modelled as `Int` (for the source's signed 32-bit values)
and `Nat` (for the unsigned 32-bit values), with every operation that can
overflow in the source guarded by an explicit range check.  Overflow of a
32-bit operation aborts a Rust program compiled with overflow checks (the
default development profile), so a fallible computation is embedded as
`Option`: `none` marks the abort.  Operations that provably cannot overflow
in context (subtracting the two accumulators in the Fibonacci loop, dividing
by the positive constants 5 and 9, incrementing the bounded loop counter) are
left unguarded, mirroring the fact that the corresponding runtime check can
never fire.
-/

/-- Range check for a signed 32-bit intermediate result: `some x` when `x`
fits in `[-2^31, 2^31 - 1]`, `none` (overflow abort) otherwise. -/
def i32chk (x : Int) : Option Int :=
  if -2147483648 ≤ x ∧ x ≤ 2147483647 then some x else none

/-- Embedding of `celsius_to_fahrenheit(celsius: i32) -> i32`, source line 7:
`(celsius * 9/5) + 32`.  The multiplication binds before the division, so the
evaluation order is: multiply by 9 (may overflow), truncating division by 5
(cannot overflow for this divisor), add 32 (may overflow).  `Int.tdiv` is
truncation toward zero, the division of the source language. -/
def celsius_to_fahrenheit (c : Int) : Option Int :=
  (i32chk (c * 9)).bind fun m => i32chk (m.tdiv 5 + 32)

/-- Embedding of `fahrenheit_to_celsius(fahrenheit: i32) -> i32`, source
line 11: `(fahrenheit - 32) * 5/9`.  Evaluation order: subtract 32 (may
overflow), multiply by 5 (may overflow), truncating division by 9 (cannot
overflow for this divisor). -/
def fahrenheit_to_celsius (f : Int) : Option Int :=
  (i32chk (f - 32)).bind fun a => (i32chk (a * 5)).bind fun b => some (b.tdiv 9)

/-- The loop of `nth_fib`, source lines 19-23, with the remaining iteration
count `n - count` made explicit as structural fuel.  One iteration performs
`f2 += f1` (unsigned 32-bit addition, aborts past `2^32 - 1`) and then
`f1 = f2 - f1` with the already-updated `f2`; that subtraction can never
underflow because the fresh `f2 + f1` is at least `f1`, so it is written
directly with `Nat` subtraction.  The counter increment cannot overflow
before the fuel runs out, since the source counter stays below the `u32`
argument `n`. -/
def fibLoop (f1 f2 : Nat) : Nat → Option Nat
  | 0 => some f2
  | k + 1 =>
    if f2 + f1 ≤ 4294967295 then fibLoop ((f2 + f1) - f1) (f2 + f1) k
    else none

/-- Embedding of `nth_fib(n: u32) -> u32`, source lines 15-25: accumulators
start at `f1 = 0`, `f2 = 1`, the counter starts at 2 and the loop runs while
`count < n`, so it runs exactly `n - 2` times (`Nat` subtraction: zero times
when `n ≤ 2`), and `f2` is returned. -/
def nth_fib (n : Nat) : Option Nat := fibLoop 0 1 (n - 2)

/-- The day-announcement line printed at source line 43; `{n}` interpolation
renders the day number in decimal. -/
def dayLine (n : Nat) : String :=
  "On the " ++ toString n ++ "th day of Christmas, my true love gave to me"

/-- The gift-line rendering of source line 46, which prints a string slice
through the debug formatter: the text is wrapped in double quotes.  (The
debug formatter would additionally escape quotes and backslashes, but no
catalogue entry contains such a character, so plain wrapping is exact here.) -/
def quotedDebug (s : String) : String := "\"" ++ s ++ "\""

/-- The fixed catalogue `carol_items: [&str; 12]` of source lines 28-41, in
source order. -/
def carol_items : List String :=
  ["A partridge in a pear tree",
   "Two turtle doves",
   "Three french hens",
   "Four calling birds",
   "Five golden rings",
   "Six geese a-laying",
   "Seven swans a-swimming",
   "Eight maids a-milking",
   "Nine ladies dancing",
   "Ten lords a-leaping",
   "Eleven pipers piping",
   "Twelve drummers drumming"]

/-- Embedding of `christmas_carol()`, source lines 42-48, as the list of
lines it prints.  `for n in 1..12` iterates `n = 1, ..., 11`; each iteration
prints the announcement line and then the slice `carol_items[0..=n]` (the
first `n + 1` entries) in reverse, each through the debug formatter. -/
def christmas_carol : List String :=
  (List.range' 1 11).flatMap fun n =>
    dayLine n :: ((carol_items.take (n + 1)).reverse.map quotedDebug)

/-- The output shape claimed by the spec for the verse printer: for each day
`k` from 1 to 11, one announcement line followed by the catalogue entries at
indices `k` down to `0`, each in quoted form. -/
def carol_output_spec : List String :=
  (List.range' 1 11).flatMap fun k =>
    dayLine k ::
      ((List.range (k + 1)).reverse.map fun i => quotedDebug (carol_items.getD i ("")))

/-- The output shape claimed by the sentence "verse `k` lists gifts `k` down
to 1": for each day `k` from 1 to 11, one announcement line followed by the
quoted gifts numbered `k` down to 1, where gift number `j` is the catalogue
entry at index `j - 1`. -/
def carol_claim_two_spec : List String :=
  (List.range' 1 11).flatMap fun k =>
    dayLine k ::
      ((List.range' 1 k).reverse.map fun j => quotedDebug (carol_items.getD (j - 1) ("")))

/-- The amended output shape: verse `k` lists gifts `k + 1` down to 1. -/
def carol_amended_two_spec : List String :=
  (List.range' 1 11).flatMap fun k =>
    dayLine k ::
      ((List.range' 1 (k + 1)).reverse.map fun j => quotedDebug (carol_items.getD (j - 1) ("")))

/-- Truncating division by 5 of a value within the 32-bit span that a checked
product can reach stays within one fifth of that span. -/
theorem tdiv_five_bound (m : Int) (h1 : -2147483646 ≤ m) (h2 : m ≤ 2147483646) :
    -429496729 ≤ m.tdiv 5 ∧ m.tdiv 5 ≤ 429496729 := by
  rcases m with a | a
  · rw [show Int.tdiv (Int.ofNat a) 5 = Int.ofNat (a / 5) from rfl]
    simp only [Int.ofNat_eq_natCast] at *
    constructor <;> omega
  · rw [show Int.tdiv (Int.negSucc a) 5 = -Int.ofNat ((a + 1) / 5) from rfl]
    simp only [Int.ofNat_eq_natCast, Int.negSucc_eq] at *
    constructor <;> omega

/-- On the overflow-free input range, the cold-to-hot conversion computes the
exact truncating formula `(c * 9).tdiv 5 + 32`.  The bound `238609294` is the
largest magnitude whose ninefold still fits in a signed 32-bit value. -/
theorem c2f_in_range_eq (c : Int) (h1 : -238609294 ≤ c) (h2 : c ≤ 238609294) :
    celsius_to_fahrenheit c = some ((c * 9).tdiv 5 + 32) := by
  have hd := tdiv_five_bound (c * 9) (by omega) (by omega)
  unfold celsius_to_fahrenheit i32chk
  rw [if_pos ⟨by omega, by omega⟩, Option.some_bind]
  rw [if_pos ⟨by omega, by omega⟩]

/-- On the overflow-free input range, the hot-to-cold conversion computes the
exact truncating formula `((f - 32) * 5).tdiv 9`.  The bounds are the exact
inputs for which `(f - 32) * 5` still fits in a signed 32-bit value. -/
theorem f2c_in_range_eq (f : Int) (h1 : -429496697 ≤ f) (h2 : f ≤ 429496761) :
    fahrenheit_to_celsius f = some (((f - 32) * 5).tdiv 9) := by
  unfold fahrenheit_to_celsius i32chk
  rw [if_pos ⟨by omega, by omega⟩, Option.some_bind]
  rw [if_pos ⟨by omega, by omega⟩, Option.some_bind]

/-- Claim C1 counterexample: the spec lists `nth_fib(3) = 2`, but the code
returns 1 at position 3 (one loop iteration from the seeds 0, 1 yields the
pair 1, 1). -/
theorem nth_fib_position_three_counterexample :
    nth_fib 3 = some 1 ∧ nth_fib 3 ≠ some 2 := by decide

/-- Claim C1, amended: past the collapsed boundary the generator follows the
additive recurrence one position later than the spec's list: position 3
yields 1, position 4 yields 2, position 5 yields 3, and position 10 yields
34 (the spec's value for position 10 is the one it gets right). -/
theorem nth_fib_small_positions :
    nth_fib 3 = some 1 ∧ nth_fib 4 = some 2 ∧ nth_fib 5 = some 3 ∧
    nth_fib 10 = some 34 := by decide

/-- Claim C2 counterexample: the output of the verse printer is not the
shape "verse `k` lists gifts `k` down to 1" — already in the first verse the
code prints two gift lines (entries at indices 1 and 0), not one. -/
theorem carol_gift_count_counterexample :
    christmas_carol ≠ carol_claim_two_spec := by decide

/-- Claim C2, amended: in the printed output, the verse for printed day
number `k` lists gifts `k + 1` down to 1 in descending order, preceded by
one day-announcement line. -/
theorem carol_verse_gifts_succ_down_to_one :
    christmas_carol = carol_amended_two_spec := by decide

/-- Claim C3 counterexample: an arithmetic-overflow abort is reachable
inside the accepted input domains — the sequence generator aborts at
position 49 (its running sum exceeds `2^32 - 1`), and the cold-to-hot
conversion aborts at the largest representable input (its ninefold exceeds
`2^31 - 1`). -/
theorem totality_overflow_counterexample :
    nth_fib 49 = none ∧ celsius_to_fahrenheit 2147483647 = none := by decide

/-- Claim C3, amended: the three routines are total — they return a value
and reach no overflow abort — on the subdomains where every intermediate
value fits its 32-bit type: ninefold-representable inputs for the
cold-to-hot conversion, fivefold-representable offsets for the hot-to-cold
conversion, and positions up to 48 for the sequence generator. -/
theorem routines_total_on_overflow_free_range :
    (∀ c : Int, -238609294 ≤ c → c ≤ 238609294 →
      (celsius_to_fahrenheit c).isSome = true) ∧
    (∀ f : Int, -429496697 ≤ f → f ≤ 429496761 →
      (fahrenheit_to_celsius f).isSome = true) ∧
    (∀ n : Nat, n < 49 → (nth_fib n).isSome = true) := by
  refine ⟨fun c h1 h2 => ?_, fun f h1 h2 => ?_, by decide⟩
  · rw [c2f_in_range_eq c h1 h2]; rfl
  · rw [f2c_in_range_eq f h1 h2]; rfl

/-- Witness for `routines_total_on_overflow_free_range` at the program's own
demonstration inputs 44, 91 and 10. -/
theorem routines_total_on_overflow_free_range_witness :
    (celsius_to_fahrenheit 44).isSome = true ∧
    (fahrenheit_to_celsius 91).isSome = true ∧
    (nth_fib 10).isSome = true :=
  ⟨routines_total_on_overflow_free_range.1 44 (by decide) (by decide),
   routines_total_on_overflow_free_range.2.1 91 (by decide) (by decide),
   routines_total_on_overflow_free_range.2.2 10 (by decide)⟩

/-- Claim C4: the complete run of the verse printer produces, for each day
`k` from 1 through 11, one day-announcement line followed by exactly `k + 1`
gift lines, namely the catalogue entries at indices `k` down to `0` in
strictly descending index order, each in quoted/debug form; in particular
exactly 11 day-announcement lines appear. -/
theorem carol_output_matches_index_spec :
    christmas_carol = carol_output_spec ∧
    (christmas_carol.countP fun line =>
      decide (line ∈ (List.range' 1 11).map dayLine)) = 11 := by decide

/-- Claim C5 counterexample: at the largest non-negative representable
input, the hot-to-cold conversion aborts on overflow instead of producing
the truncated value of the formula `(f - 32) * 5 / 9`. -/
theorem f2c_formula_counterexample :
    fahrenheit_to_celsius 2147483647 = none ∧
    fahrenheit_to_celsius 2147483647 ≠
      some ((((2147483647 : Int) - 32) * 5).tdiv 9) := by decide

/-- Claim C5, amended: for every non-negative input `f` up to 429496761
(the largest input whose intermediate product still fits in 32 bits),
`fahrenheit_to_celsius f` equals `(f - 32) * 5 / 9` under
truncation-toward-zero division; in particular input 91 yields 32 and input
44 yields 6. -/
theorem f2c_truncating_formula :
    (∀ f : Int, 0 ≤ f → f ≤ 429496761 →
      fahrenheit_to_celsius f = some (((f - 32) * 5).tdiv 9)) ∧
    fahrenheit_to_celsius 91 = some 32 ∧ fahrenheit_to_celsius 44 = some 6 :=
  ⟨fun f h1 h2 => f2c_in_range_eq f (by omega) h2, by decide, by decide⟩

/-- Witness for `f2c_truncating_formula` at the concrete input 91. -/
theorem f2c_truncating_formula_witness :
    fahrenheit_to_celsius 91 = some ((((91 : Int) - 32) * 5).tdiv 9) :=
  f2c_truncating_formula.1 91 (by decide) (by decide)

/-- Claim C6 counterexample: at the largest representable input, the
cold-to-hot conversion aborts on overflow instead of producing the truncated
value of the formula `(c * 9 / 5) + 32`. -/
theorem c2f_formula_counterexample :
    celsius_to_fahrenheit 2147483647 = none ∧
    celsius_to_fahrenheit 2147483647 ≠
      some (((2147483647 : Int) * 9).tdiv 5 + 32) := by decide

/-- Claim C6, amended: for every input `c` of magnitude at most 238609294
(the largest magnitude whose ninefold still fits in 32 bits),
`celsius_to_fahrenheit c` equals `(c * 9 / 5) + 32` with the multiplication
applied before the truncating division; in particular input 44 yields 111
and input 0 yields 32. -/
theorem c2f_truncating_formula :
    (∀ c : Int, -238609294 ≤ c → c ≤ 238609294 →
      celsius_to_fahrenheit c = some ((c * 9).tdiv 5 + 32)) ∧
    celsius_to_fahrenheit 44 = some 111 ∧ celsius_to_fahrenheit 0 = some 32 :=
  ⟨c2f_in_range_eq, by decide, by decide⟩

/-- Witness for `c2f_truncating_formula` at the concrete input 44. -/
theorem c2f_truncating_formula_witness :
    celsius_to_fahrenheit 44 = some (((44 : Int) * 9).tdiv 5 + 32) :=
  c2f_truncating_formula.1 44 (by decide) (by decide)

/-- Claim C7: for each requested position 0, 1 and 2 the loop runs zero
iterations and the generator returns the seed of the second accumulator, 1;
more generally, with zero remaining iterations the loop returns its second
accumulator unchanged, whatever the accumulators hold. -/
theorem nth_fib_boundary_collapse :
    nth_fib 0 = some 1 ∧ nth_fib 1 = some 1 ∧ nth_fib 2 = some 1 ∧
    ∀ s1 s2 : Nat, fibLoop s1 s2 0 = some s2 :=
  ⟨by decide, by decide, by decide, fun s1 s2 => rfl⟩

/-- Claim C8: the hot-to-cold then cold-to-hot round trip is not the
identity: 91 converts to 32, 32 converts back to 89, and 89 differs
from 91. -/
theorem round_trip_not_identity :
    fahrenheit_to_celsius 91 = some 32 ∧ celsius_to_fahrenheit 32 = some 89 ∧
    (fahrenheit_to_celsius 91).bind celsius_to_fahrenheit = some 89 ∧
    (89 : Int) ≠ 91 := by decide

/-- Claim C9: the verse catalogue holds exactly the twelve literal entries
in their fixed order, and every line the verse printer emits is either a
day-announcement line or the quoted form of one of those twelve entries —
no run of the printer observes anything outside the fixed catalogue. -/
theorem carol_catalogue_fixed :
    carol_items.length = 12 ∧
    carol_items =
      ["A partridge in a pear tree",
       "Two turtle doves",
       "Three french hens",
       "Four calling birds",
       "Five golden rings",
       "Six geese a-laying",
       "Seven swans a-swimming",
       "Eight maids a-milking",
       "Nine ladies dancing",
       "Ten lords a-leaping",
       "Eleven pipers piping",
       "Twelve drummers drumming"] ∧
    (christmas_carol.all fun line =>
      decide (line ∈ (List.range' 1 11).map dayLine) ||
      decide (line ∈ carol_items.map quotedDebug)) = true := by decide

/-- Claim C10: for every position `n` with `2 ≤ n ≤ 48` the generator
returns the standard Fibonacci number at index `n - 1` (with `F 0 = 0`,
`F 1 = 1`), and no overflow abort occurs on that range. -/
theorem nth_fib_eq_fib_pred :
    ∀ n : Nat, n < 49 → 2 ≤ n → nth_fib n = some (Nat.fib (n - 1)) := by decide

/-- Witness for `nth_fib_eq_fib_pred` at the program's own demonstration
position 10. -/
theorem nth_fib_eq_fib_pred_witness :
    nth_fib 10 = some (Nat.fib (10 - 1)) :=
  nth_fib_eq_fib_pred 10 (by decide) (by decide)
